import Mathlib

/-!
Verification development for the HR_Signals repository.

The repository ships a React frontend (an axios API client `src/services/api.ts`,
here `src/unnamed/part_000`, and the pages `Dashboard.tsx`, `ArticlesPage.tsx`,
`ArticleDetail.tsx`, `TrendsPage.tsx`) over a content-intelligence pipeline
described in `spec.md`.  The frontend code is embedded function by function;
pipeline components that are not part of the shipped sources (Deduplicator,
Analyzer, Trend Engine) are modelled from the spec, with each such definition
marked `Modelled from the spec:` in its doc comment.

JavaScript conventions used by the embedding:
* an optional field of a TS interface is a `JsOpt`: `undef` (key absent),
  `null` (key present with JSON null), or `val a`;
* `x !== null` is `JsOpt.neNull`, JS truthiness of numbers/strings/options is
  made explicit per use site;
* JS `Number` values carried by the data model are embedded as `ℚ` (the usual
  idealisation; no claim here depends on binary rounding); `Math.round` rounds
  halves towards `+∞`, which is exactly Mathlib's `round`, while
  `Number.prototype.toFixed(0)` strips the sign first and resolves ties to the
  larger magnitude, i.e. rounds halves away from zero — embedded as
  `toFixedRound`, which differs from `round` at negative ties such as `-12.5`.
-/

namespace HRSignals

/-- A JavaScript optional value: the key may be absent (`undef`), present and
`null`, or present with a value. -/
inductive JsOpt (α : Type) where
  | undef : JsOpt α
  | null : JsOpt α
  | val : α → JsOpt α
deriving DecidableEq

/-- The JS strict comparison `x !== null`: true for `undefined` and for any
value, false only for `null`. -/
def JsOpt.neNull {α : Type} : JsOpt α → Bool
  | .null => false
  | .undef => true
  | .val _ => true

/-- Whether a `JsOpt` carries no value (it is `null` or `undefined`). -/
def JsOpt.isNullish {α : Type} : JsOpt α → Bool
  | .val _ => false
  | _ => true

/-- JS truthiness of an optional number: `null`, `undefined` and `0` are falsy
(`NaN` cannot arise for a `ℚ`-embedded field). -/
def JsOpt.numTruthy : JsOpt ℚ → Bool
  | .val m => decide (m ≠ 0)
  | _ => false

/-! ### Data model (`src/unnamed/part_000`, the TS interfaces) -/

/-- The `Theme` interface of `src/unnamed/part_000`. -/
structure Theme where
  id : Int
  name : String
  description : JsOpt String
  keywords : JsOpt (List String)
  color : JsOpt String
deriving DecidableEq

/-- The `Sector` interface of `src/unnamed/part_000`. -/
structure Sector where
  id : Int
  name : String
  description : JsOpt String
deriving DecidableEq

/-- The `Article` interface of `src/unnamed/part_000`. -/
structure Article where
  id : Int
  title : String
  url : String
  source : String
  source_type : String
  author : JsOpt String
  published_date : String
  scraped_date : String
  summary : JsOpt String
  key_takeaways : JsOpt (List String)
  primary_theme : JsOpt String
  confidence_score : JsOpt ℚ
  region : JsOpt String
  sentiment_score : JsOpt ℚ
  sentiment_label : JsOpt String
  signal_strength : JsOpt ℚ
  is_featured : Bool
  is_emerging : Bool
  view_count : Int
  themes : List Theme
  sectors : List Sector
deriving DecidableEq

/-- The `Insight` interface of `src/unnamed/part_000`. -/
structure Insight where
  id : Int
  article_id : Int
  title : String
  description : String
  impact_level : JsOpt String
  time_horizon : JsOpt String
  created_date : String
  relevance_score : JsOpt ℚ
deriving DecidableEq

/-- The `TrendDataPoint` interface of `src/unnamed/part_000`. -/
structure TrendDataPoint where
  date : String
  article_count : Int
  sentiment_avg : JsOpt ℚ
  signal_strength_avg : JsOpt ℚ
deriving DecidableEq

/-- The `Trend` interface of `src/unnamed/part_000`. -/
structure Trend where
  id : Int
  name : String
  description : JsOpt String
  keywords : JsOpt (List String)
  start_date : String
  last_updated : String
  article_count : Int
  momentum : JsOpt ℚ
  status : JsOpt String
  region : JsOpt String
  data_points : List TrendDataPoint
deriving DecidableEq

/-- The `Digest` interface of `src/unnamed/part_000`. -/
structure Digest where
  id : Int
  digest_type : String
  period_start : String
  period_end : String
  created_date : String
  title : JsOpt String
  summary : JsOpt String
  top_stories : JsOpt (List String)
  emerging_trends : JsOpt (List String)
  key_insights : JsOpt (List String)
  total_articles : JsOpt Int
  themes_covered : JsOpt (List String)
  regions_covered : JsOpt (List String)
deriving DecidableEq

/-! ### C1: the API client issues only GET requests
(`src/unnamed/part_000`, lines 124-172) -/

/-- HTTP request methods. -/
inductive HttpMethod where
  | get | post | put | patch | delete
deriving DecidableEq

/-- The operations the frontend API client defines: every function exposed by
`articlesApi`, `themesApi`, `insightsApi`, `trendsApi`, `digestsApi` and
`statsApi` in `src/unnamed/part_000`. -/
inductive ApiOperation where
  | articlesGetAll
  | articlesGetById
  | articlesGetFeatured
  | articlesSearch
  | themesGetAll
  | themesGetArticles
  | insightsGetAll
  | trendsGetAll
  | trendsGetEmerging
  | digestsGetAll
  | digestsGetLatest
  | statsGet
deriving DecidableEq

/-- The HTTP method each client operation uses, transcribed call by call from
`src/unnamed/part_000`: every operation body is an `api.get(...)` call. -/
def apiMethod : ApiOperation → HttpMethod
  | .articlesGetAll => .get
  | .articlesGetById => .get
  | .articlesGetFeatured => .get
  | .articlesSearch => .get
  | .themesGetAll => .get
  | .themesGetArticles => .get
  | .insightsGetAll => .get
  | .trendsGetAll => .get
  | .trendsGetEmerging => .get
  | .digestsGetAll => .get
  | .digestsGetLatest => .get
  | .statsGet => .get

/-- The pipeline's persisted entities, as the spec's data model lists them
(Articles, Themes, Sectors, Insights, Trends, Digests). -/
structure PipelineState where
  articles : List Article
  themes : List Theme
  sectors : List Sector
  insights : List Insight
  trends : List Trend
  digests : List Digest
deriving DecidableEq

/-- Modelled from the spec: the query/API layer is read-only ("ownership = the
pipeline is the sole writer, the query/API layer is read-only"), so a GET
request leaves the persisted state unchanged, while a mutating method could
replace it with an arbitrary successor state `mutated`. -/
def requestEffect (m : HttpMethod) (s mutated : PipelineState) : PipelineState :=
  match m with
  | .get => s
  | .post => mutated
  | .put => mutated
  | .patch => mutated
  | .delete => mutated

/-! ### C7: the three sentiment renderings agree -/

/-- The three visual styles the frontend uses for a sentiment label. -/
inductive SentimentStyle where
  | green | red | gray
deriving DecidableEq

/-- The pie-chart cell fill colour for a sentiment bucket
(`Dashboard.tsx`, lines 140-151). -/
def sentimentCellFill (sentiment : String) : String :=
  if sentiment = "positive" then "#10B981"
  else if sentiment = "negative" then "#EF4444"
  else "#6B7280"

/-- The badge CSS classes for an article card's sentiment label
(`ArticlesPage.tsx`, lines 226-238). -/
def sentimentBadgeCss (label : String) : String :=
  if label = "positive" then "bg-green-100 text-green-800"
  else if label = "negative" then "bg-red-100 text-red-800"
  else "bg-gray-100 text-gray-800"

/-- The text colour classes of the article-detail sentiment metric
(`ArticleDetail.tsx`, lines 122-133). -/
def sentimentMetricCss (label : String) : String :=
  if label = "positive" then "text-green-600"
  else if label = "negative" then "text-red-600"
  else "text-gray-600"

/-- Which of the three styles a pie-cell fill colour is. -/
def styleOfFill (fill : String) : SentimentStyle :=
  if fill = "#10B981" then .green
  else if fill = "#EF4444" then .red
  else .gray

/-- Which of the three styles a badge class string is. -/
def styleOfBadge (css : String) : SentimentStyle :=
  if css = "bg-green-100 text-green-800" then .green
  else if css = "bg-red-100 text-red-800" then .red
  else .gray

/-- Which of the three styles a detail-metric class string is. -/
def styleOfMetric (css : String) : SentimentStyle :=
  if css = "text-green-600" then .green
  else if css = "text-red-600" then .red
  else .gray

/-- The common mapping all three renderings are claimed to implement. -/
def sentimentStyleMap (label : String) : SentimentStyle :=
  if label = "positive" then .green
  else if label = "negative" then .red
  else .gray

/-! ### C10: the `SignalStrength` component (`Dashboard.tsx`, lines 335-349) -/

/-- The bar count `Math.round(value * 5)` of the `SignalStrength` component. -/
def signalBars (value : ℚ) : Int :=
  round (value * 5)

/-- Whether bar `i` (0-based, of the five bars) is rendered green:
the component colours bar `i` green exactly when `i < bars`. -/
def signalBarGreen (value : ℚ) (i : Nat) : Bool :=
  decide ((i : Int) < signalBars value)

/-- The full bar rendering of `SignalStrength`: `[...Array(5)].map(...)`,
one boolean (green?) per bar. -/
def signalStrengthRender (value : ℚ) : List Bool :=
  (List.range 5).map (signalBarGreen value)

/-- How many of the rendered bars are green. -/
def greenBarCount (value : ℚ) : Nat :=
  (signalStrengthRender value).count true

/-! ### C2: rendering guards for the analysis metrics -/

/-- Whether the article list card shows the signal-strength metric
(`ArticlesPage.tsx`, line 243: `article.signal_strength !== null`). -/
def cardShowsSignal (a : Article) : Bool :=
  a.signal_strength.neNull

/-- The article list card defines no AI-confidence metric at all
(`ArticlesPage.tsx`, the whole of `ArticleCard`). -/
def cardShowsConfidence (_a : Article) : Bool :=
  false

/-- Whether the detail view shows the signal-strength metric
(`ArticleDetail.tsx`, line 113: `article.signal_strength !== null`). -/
def detailShowsSignal (a : Article) : Bool :=
  a.signal_strength.neNull

/-- Whether the detail view shows the AI-confidence metric
(`ArticleDetail.tsx`, line 135: `article.confidence_score !== null`). -/
def detailShowsConfidence (a : Article) : Bool :=
  a.confidence_score.neNull

/-- Whether every analysis field of a frontend `Article` is nullish (null or
absent): the state of an Article the Analyzer never successfully processed,
per the spec sentence "analysis fields are null until the Analyzer has
successfully processed it". -/
def analysisFieldsNullish (a : Article) : Bool :=
  a.summary.isNullish && a.key_takeaways.isNullish &&
    a.confidence_score.isNullish && a.sentiment_score.isNullish &&
    a.sentiment_label.isNullish && a.signal_strength.isNullish

/-- Whether every analysis field of a frontend `Article` is literally `null`
(present keys with JSON null values). -/
def analysisFieldsNull (a : Article) : Bool :=
  decide (a.summary = .null) && decide (a.key_takeaways = .null) &&
    decide (a.confidence_score = .null) && decide (a.sentiment_score = .null) &&
    decide (a.sentiment_label = .null) && decide (a.signal_strength = .null)

/-! ### C6: the momentum indicator (`TrendsPage.tsx` lines 45-50,
`Dashboard.tsx` lines 229-234) -/

/-- What a rendered momentum indicator contains: the percentage text
`(momentum * 100).toFixed(0)` and the (always green, upward-arrow) styling. -/
structure MomentumIndicator where
  pct : Int
  css : String
deriving DecidableEq

/-- The integer `x.toFixed(0)` denotes: the ECMAScript algorithm strips the
sign, picks the integer closest to the magnitude resolving ties to the larger
one, then reattaches the sign — so halves round away from zero, unlike
`Math.round` (Mathlib's `round`), which rounds halves towards `+∞`. -/
def toFixedRound (x : ℚ) : Int :=
  if x < 0 then -round (-x) else round x

/-- The momentum indicator of the Trends page
(`TrendsPage.tsx`, lines 45-50): guarded by JS truthiness `trend.momentum &&`,
then rendered as `(trend.momentum * 100).toFixed(0)` with class
`text-green-600` and an `ArrowTrendingUpIcon`. -/
def trendsPageMomentum (t : Trend) : Option MomentumIndicator :=
  match t.momentum with
  | .val m =>
    if m = 0 then none else some ⟨toFixedRound (m * 100), "text-green-600"⟩
  | _ => none

/-- The momentum indicator of the Dashboard emerging-trends panel
(`Dashboard.tsx`, lines 229-234): the same guard and rendering as the Trends
page. -/
def dashboardMomentum (t : Trend) : Option MomentumIndicator :=
  match t.momentum with
  | .val m =>
    if m = 0 then none else some ⟨toFixedRound (m * 100), "text-green-600"⟩
  | _ => none

/-! ### C8: the ArticlesPage filter state
(`ArticlesPage.tsx`, lines 8-11, 23-29 and the filter `onChange` handlers) -/

/-- The `ArticleFilters` state the ArticlesPage keeps in `useState`; the page
only ever sets the four filter keys wired to its selects, plus `skip` and
`limit`. -/
structure Filters where
  skip : Int
  limit : Int
  theme : JsOpt String
  region : JsOpt String
  is_featured : JsOpt Bool
  min_signal_strength : JsOpt ℚ
deriving DecidableEq

/-- The initial filter state `{ skip: 0, limit: 20 }`
(`ArticlesPage.tsx`, lines 8-11). -/
def initialFilters : Filters :=
  { skip := 0, limit := 20, theme := .undef, region := .undef,
    is_featured := .undef, min_signal_strength := .undef }

/-- The state-changing events the page can fire: one `handleFilterChange`
invocation per select (each passes its key and a new value), and
`handleLoadMore`. -/
inductive FilterEvent where
  | setTheme (v : JsOpt String)
  | setRegion (v : JsOpt String)
  | setFeatured (v : JsOpt Bool)
  | setMinSignal (v : JsOpt ℚ)
  | loadMore
deriving DecidableEq

/-- JS `x || d` on a number: `0` (and a missing value, which cannot arise
here) falls back to the default. -/
def jsOrInt (x d : Int) : Int :=
  if x = 0 then d else x

/-- One step of the page's filter state: `handleFilterChange` spreads the
previous state, writes the changed key, then writes `skip: 0`
(`ArticlesPage.tsx`, lines 23-25); `handleLoadMore` writes
`skip: (prev.skip || 0) + 20` (lines 27-29). -/
def applyFilterEvent (f : Filters) : FilterEvent → Filters
  | .setTheme v => { f with theme := v, skip := 0 }
  | .setRegion v => { f with region := v, skip := 0 }
  | .setFeatured v => { f with is_featured := v, skip := 0 }
  | .setMinSignal v => { f with min_signal_strength := v, skip := 0 }
  | .loadMore => { f with skip := jsOrInt f.skip 0 + 20 }

/-- The filter state after a sequence of events, starting from the initial
state. -/
def runFilterEvents (evs : List FilterEvent) : Filters :=
  evs.foldl applyFilterEvent initialFilters

/-! ### C9: the ArticleDetail route-parameter handling
(`ArticleDetail.tsx`, lines 6-26) -/

/-- Whether a character is ECMAScript whitespace (`StrWhiteSpaceChar`): tab,
line feed, vertical tab, form feed, carriage return, space, no-break space,
the Unicode space separators, the line/paragraph separators and the BOM. -/
def jsWhitespace (c : Char) : Bool :=
  [0x09, 0x0A, 0x0B, 0x0C, 0x0D, 0x20, 0xA0, 0x1680, 0x2000, 0x2001, 0x2002,
    0x2003, 0x2004, 0x2005, 0x2006, 0x2007, 0x2008, 0x2009, 0x200A, 0x202F,
    0x205F, 0x3000, 0x2028, 0x2029, 0xFEFF].contains c.toNat

/-- The numeric value of a decimal digit character, if it is one. -/
def decVal (c : Char) : Option Nat :=
  if c.isDigit then some (c.toNat - 48) else none

/-- The numeric value of a hexadecimal digit character, if it is one. -/
def hexVal (c : Char) : Option Nat :=
  if c.isDigit then some (c.toNat - 48)
  else if 'a' ≤ c ∧ c ≤ 'f' then some (c.toNat - 87)
  else if 'A' ≤ c ∧ c ≤ 'F' then some (c.toNat - 55)
  else none

/-- The values of the longest leading run of digits recognised by `dv`. -/
def takeDigits (dv : Char → Option Nat) : List Char → List Nat
  | [] => []
  | c :: cs =>
    match dv c with
    | none => []
    | some d => d :: takeDigits dv cs

/-- The number a digit-value list denotes in the given base. -/
def digitsToNat (base : Nat) (ds : List Nat) : Nat :=
  ds.foldl (fun acc d => acc * base + d) 0

/-- The longest leading digit run as a number; `none` when the run is
empty. -/
def parseRun (base : Nat) (dv : Char → Option Nat) (cs : List Char) :
    Option Nat :=
  match takeDigits dv cs with
  | [] => none
  | ds => some (digitsToNat base ds)

/-- JS `parseInt(s)` with no radix argument: leading ECMAScript whitespace is
skipped, an optional `+`/`-` sign is read, a `0x`/`0X` prefix switches to
radix 16 (so `parseInt('0x10')` is 16), and the longest leading run of
radix digits is converted; `none` stands for `NaN` (no digits found, as for
`'abc'` or a bare `'0x'`). -/
def parseIntJs (s : String) : Option Int :=
  let cs := s.toList.dropWhile jsWhitespace
  let signed :=
    match cs with
    | '-' :: rest => (true, rest)
    | '+' :: rest => (false, rest)
    | _ => (false, cs)
  let based :=
    match signed.2 with
    | '0' :: 'x' :: rest => (16, rest)
    | '0' :: 'X' :: rest => (16, rest)
    | _ => (10, signed.2)
  match parseRun based.1 (if based.1 = 16 then hexVal else decVal) based.2 with
  | none => none
  | some n => some (if signed.1 then -(n : Int) else (n : Int))

/-- JS `id || '0'` on the route parameter: `undefined` and the empty string
fall back to `'0'`. -/
def jsOrStr (x : Option String) (d : String) : String :=
  match x with
  | none => d
  | some s => if s = "" then d else s

/-- The `articleId` the page computes: `parseInt(id || '0')`
(`ArticleDetail.tsx`, line 8); `none` stands for `NaN`. -/
def articleIdOfParam (idParam : Option String) : Option Int :=
  parseIntJs (jsOrStr idParam "0")

/-- JS truthiness of the computed `articleId` (`enabled: !!articleId`,
line 13): `0` and `NaN` are falsy. -/
def articleIdTruthy (articleId : Option Int) : Bool :=
  match articleId with
  | some n => decide (n ≠ 0)
  | none => false

/-- What the settled ArticleDetail page shows. -/
inductive DetailRender where
  | notFound
  | content (a : Article)
deriving DecidableEq

/-- The settled behaviour of `ArticleDetail` (`ArticleDetail.tsx`,
lines 6-26) as a function of the route parameter and of the backend's answer
for an id: the query runs only when `enabled: !!articleId` holds (a disabled
react-query query stays idle: it issues no request and leaves `data`
undefined, so `!article` renders the not-found state).  The first component
records whether an API request for the article was issued, the second what
the page renders once no longer loading. -/
def articleDetailView (idParam : Option String) (fetch : Int → Option Article) :
    Bool × DetailRender :=
  let articleId := articleIdOfParam idParam
  if articleIdTruthy articleId then
    match articleId with
    | some n =>
      match fetch n with
      | some a => (true, .content a)
      | none => (true, .notFound)
    | none => (true, .notFound)
  else
    (false, .notFound)

/-! ### Pipeline components modelled from the spec

The repository sources contain only the frontend; the pipeline itself
(Fetcher, Deduplicator, Analyzer, Trend Engine) is specified in `spec.md` but
its code is not under `src/`.  The definitions below are therefore modelled
from the spec, sentence by sentence. -/

namespace Pipeline

/-- Modelled from the spec: an `IngestedDocument` ("transient, not persisted:
url, raw_text, title, published_at, source_id"). -/
structure IngestedDocument where
  url : String
  raw_text : String
  title : String
  published_at : String
  source_id : Int
deriving DecidableEq

/-- Modelled from the spec: the persisted pipeline `Article`, restricted to
the fields the ingestion claims need (`url (unique)`, title, source). -/
structure StoredArticle where
  url : String
  title : String
  source_id : Int
deriving DecidableEq

/-- Modelled from the spec: the Deduplicator's `isNew(document)` — "Primary
key is the normalized URL"; a document is new when no stored Article has the
same normalized URL.  `norm` is the URL normalization (scheme/host/path
lowercased, tracking parameters stripped), kept abstract. -/
def isNew (norm : String → String) (stored : List StoredArticle)
    (d : IngestedDocument) : Bool :=
  !(stored.any (fun a => norm a.url = norm d.url))

/-- Modelled from the spec: ingesting one document — "re-fetching the same
url never creates a second Article"; a new document is appended as an
Article, a duplicate leaves the store unchanged. -/
def ingestDoc (norm : String → String) (stored : List StoredArticle)
    (d : IngestedDocument) : List StoredArticle :=
  if isNew norm stored d then stored ++ [⟨d.url, d.title, d.source_id⟩]
  else stored

/-- Modelled from the spec: one pipeline run over a batch of fetched
documents, in order. -/
def ingestRun (norm : String → String) (stored : List StoredArticle)
    (docs : List IngestedDocument) : List StoredArticle :=
  docs.foldl (ingestDoc norm) stored

/-- Whether the stored Articles have pairwise distinct normalized URLs ("at
most one Article ever exists" per normalized URL). -/
def urlsDistinct (norm : String → String) (stored : List StoredArticle) : Prop :=
  stored.Pairwise (fun a b => norm a.url ≠ norm b.url)

/-! #### C4: the Trend status machine -/

/-- The spec's Trend status enum. -/
inductive TrendStatus where
  | emerging | growing | peak | declining
deriving DecidableEq

/-- The status edges the spec allows: `emerging→growing→peak→declining`, plus
`declining→growing`. -/
def allowedEdge : TrendStatus → TrendStatus → Bool
  | .emerging, .growing => true
  | .growing, .peak => true
  | .peak, .declining => true
  | .declining, .growing => true
  | _, _ => false

/-- Modelled from the spec: the Trend Engine's status-transition decision for
one recomputation, given the freshly computed momentum. "Sustained positive
momentum transitions `growing`; momentum crossing near zero after growth
transitions `peak`; negative momentum transitions `declining`; a declining
Trend that regains article velocity re-enters `growing`, not `emerging`";
transitions are "monotone forward, no skipping states".  `posThreshold`
(sustained-positive) and `nearZero` (the near-zero band edge) are the spec's
tunable configuration thresholds. -/
def nextStatus (posThreshold nearZero : ℚ) (s : TrendStatus) (momentum : ℚ) :
    TrendStatus :=
  match s with
  | .emerging => if posThreshold ≤ momentum then .growing else .emerging
  | .growing => if momentum ≤ nearZero then .peak else .growing
  | .peak => if momentum < 0 then .declining else .peak
  | .declining => if posThreshold ≤ momentum then .growing else .declining

/-- The statuses a Trend takes on across successive pipeline runs: the
current status followed by the statuses after each recomputed momentum. -/
def statusTrace (posThreshold nearZero : ℚ) (s : TrendStatus) :
    List ℚ → List TrendStatus
  | [] => [s]
  | m :: ms =>
    s :: statusTrace posThreshold nearZero (nextStatus posThreshold nearZero s m) ms

/-- One observed step of a Trend's status history is sound: it either stays
put or follows an allowed edge, and it never enters `emerging` from another
status (emerging is a one-time first-detection state). -/
def stepOk (a b : TrendStatus) : Prop :=
  (a = b ∨ allowedEdge a b = true) ∧ (b = .emerging → a = .emerging)

/-! #### C5: the Analyzer contract -/

/-- Modelled from the spec: the Analyzer's `AnalysisResult` ("summary,
key_takeaways (3-5 short strings), theme_guess, sentiment_label +
sentiment_score, signal_strength (0..1), confidence_score (0..1)"). -/
structure AnalysisResult where
  summary : String
  key_takeaways : List String
  theme_guess : String
  sentiment_label : String
  sentiment_score : ℚ
  signal_strength : ℚ
  confidence_score : ℚ
deriving DecidableEq

/-- Modelled from the spec: response validation — "implementers must validate
every required field is present and of the correct type before accepting a
response"; the ranges are the contract's `signal_strength (0..1)`,
`confidence_score (0..1)`, `sentiment_score (-1..1)` and `key_takeaways (3-5
short strings)`. -/
def validResult (r : AnalysisResult) : Bool :=
  decide (0 ≤ r.signal_strength) && decide (r.signal_strength ≤ 1) &&
    decide (0 ≤ r.confidence_score) && decide (r.confidence_score ≤ 1) &&
    decide (-1 ≤ r.sentiment_score) && decide (r.sentiment_score ≤ 1) &&
    decide (3 ≤ r.key_takeaways.length) && decide (r.key_takeaways.length ≤ 5)

/-- Modelled from the spec: an Article's analysis state — "analysis fields
are null until the Analyzer has successfully processed it"; all analysis
fields are present together (one accepted `AnalysisResult`) or absent
together. -/
structure AnalyzedArticle where
  url : String
  analysis : Option AnalysisResult
deriving DecidableEq

/-- Modelled from the spec: the outcome of one Analyzer attempt for an
Article — either a transient/permanent failure after retries (`none`) or a
returned response, which is accepted only if validation passes ("malformed
responses … are treated identically to a transient failure"); "on exhausting
retries the Article is persisted without analysis fields"; an accepted
re-analysis may supersede fields, "never by new rows". -/
def applyAnalysis (a : AnalyzedArticle) (outcome : Option AnalysisResult) :
    AnalyzedArticle :=
  match outcome with
  | some r => if validResult r then { a with analysis := some r } else a
  | none => a

/-- An Article as first persisted, before any successful analysis. -/
def unanalyzed (url : String) : AnalyzedArticle :=
  { url := url, analysis := none }

/-- Whether some attempt in a history of Analyzer outcomes succeeded, i.e.
returned a response that passes validation. -/
def anyAccepted (outcomes : List (Option AnalysisResult)) : Bool :=
  outcomes.any (fun o =>
    match o with
    | some r => validResult r
    | none => false)

end Pipeline

/-! ## Theorems -/

/-- C1: every operation of the frontend API client (`articlesApi`,
`themesApi`, `insightsApi`, `trendsApi`, `digestsApi`, `statsApi`) issues only
HTTP GET requests; the client defines no creating, updating or deleting
operation, so (the read layer being read-only) every client call leaves the
pipeline's persisted state unchanged. -/
theorem apiClient_issues_only_get (op : ApiOperation) (s mutated : PipelineState) :
    apiMethod op = HttpMethod.get ∧ requestEffect (apiMethod op) s mutated = s := by
  cases op <;> exact ⟨rfl, rfl⟩

/-- C7: the dashboard pie-chart cell colour, the article-card badge and the
article-detail metric all classify a sentiment label by the same mapping:
`positive` is styled green, `negative` red, and every other label — `neutral`
included — falls to the neutral gray style. -/
theorem sentiment_renderings_agree (s : String) :
    styleOfFill (sentimentCellFill s) = sentimentStyleMap s ∧
    styleOfBadge (sentimentBadgeCss s) = sentimentStyleMap s ∧
    styleOfMetric (sentimentMetricCss s) = sentimentStyleMap s ∧
    sentimentStyleMap "positive" = SentimentStyle.green ∧
    sentimentStyleMap "negative" = SentimentStyle.red ∧
    (s ≠ "positive" → s ≠ "negative" → sentimentStyleMap s = SentimentStyle.gray) := by
  unfold styleOfFill styleOfBadge styleOfMetric sentimentCellFill sentimentBadgeCss
    sentimentMetricCss sentimentStyleMap
  by_cases h1 : s = "positive" <;> by_cases h2 : s = "negative" <;>
    simp [h1, h2]

/-- Witness for C7, at the out-of-enum label `mixed`. -/
theorem sentiment_renderings_agree_witness :
    styleOfFill (sentimentCellFill "mixed") = sentimentStyleMap "mixed" ∧
    styleOfBadge (sentimentBadgeCss "mixed") = sentimentStyleMap "mixed" ∧
    styleOfMetric (sentimentMetricCss "mixed") = sentimentStyleMap "mixed" ∧
    sentimentStyleMap "mixed" = SentimentStyle.gray := by
  have h := sentiment_renderings_agree "mixed"
  exact ⟨h.1, h.2.1, h.2.2.1, h.2.2.2.2.2 (by decide) (by decide)⟩

/-- The green-bar count of `SignalStrength` as a `countP` over the bar
indices. -/
lemma greenBarCount_eq_countP (v : ℚ) :
    greenBarCount v = (List.range 5).countP (signalBarGreen v) := by
  unfold greenBarCount signalStrengthRender
  rw [List.count_eq_countP, List.countP_map]
  simp [Function.comp_def]

/-- `Math.round` is monotone, so the bar count is monotone in the value. -/
lemma signalBars_mono {v w : ℚ} (h : v ≤ w) : signalBars v ≤ signalBars w := by
  unfold signalBars
  rw [round_eq, round_eq]
  exact Int.floor_mono (by linarith)

/-- C10: the `SignalStrength` component renders exactly 5 bars; bar `i` is
green exactly when `i < round(v*5)` (so the green bars are the first
`round(v*5)` and the rest gray); the green-bar count never exceeds 5 and is
monotone non-decreasing on `[0, 1]`. -/
theorem signalStrength_component_spec (v w : ℚ) :
    (signalStrengthRender v).length = 5 ∧
    (∀ i : Nat, i < 5 →
      ((signalStrengthRender v).getD i false = true ↔ (i : Int) < round (v * 5))) ∧
    greenBarCount v ≤ 5 ∧
    (0 ≤ v → v ≤ w → w ≤ 1 → greenBarCount v ≤ greenBarCount w) := by
  refine ⟨by simp [signalStrengthRender], ?_, ?_, ?_⟩
  · intro i hi
    interval_cases i <;>
      simp [signalStrengthRender, signalBarGreen, signalBars, List.range_succ]
  · calc greenBarCount v ≤ (signalStrengthRender v).length :=
          List.count_le_length _ _
    _ = 5 := by simp [signalStrengthRender]
  · intro _ hvw _
    rw [greenBarCount_eq_countP, greenBarCount_eq_countP]
    refine List.countP_mono_left ?_
    intro i _ hp
    have h1 : (i : Int) < signalBars v := by
      simpa [signalBarGreen] using hp
    have h2 : (i : Int) < signalBars w := lt_of_lt_of_le h1 (signalBars_mono hvw)
    simpa [signalBarGreen] using h2

/-- Witness for C10 at `v = 1/2`, `w = 1`. -/
theorem signalStrength_component_spec_witness :
    (signalStrengthRender (1 / 2)).length = 5 ∧
    greenBarCount (1 / 2) ≤ 5 ∧
    greenBarCount (1 / 2) ≤ greenBarCount 1 := by
  have h := signalStrength_component_spec (1 / 2) 1
  exact ⟨h.1, h.2.2.1, h.2.2.2 (by norm_num) (by norm_num) (by norm_num)⟩

/-- A concrete Trend with momentum `-1/8` (exactly representable as a
double), so `momentum * 100 = -12.5`, a negative tie. -/
def negHalfTrend : Trend :=
  { id := 2, name := "Return to office", description := JsOpt.undef,
    keywords := JsOpt.undef, start_date := "2025-01-01",
    last_updated := "2025-01-02", article_count := 5,
    momentum := JsOpt.val (-(1 / 8)), status := JsOpt.val "declining",
    region := JsOpt.undef, data_points := [] }

/-- C6 counterexample: at momentum `-1/8` both pages render the percentage
`-13` (the code's `toFixed(0)` resolves the tie `-12.5` away from zero),
while `round(momentum*100)` is `-12` — so the claim's rendered value is wrong
for this present, nonzero momentum. -/
theorem momentum_ties_counterexample :
    trendsPageMomentum negHalfTrend = some ⟨-13, "text-green-600"⟩ ∧
    dashboardMomentum negHalfTrend = some ⟨-13, "text-green-600"⟩ ∧
    round ((-(1 / 8) : ℚ) * 100) = -12 := by
  have hfix : toFixedRound ((-(1 / 8) : ℚ) * 100) = -13 := by
    norm_num [toFixedRound, round_eq]
  refine ⟨?_, ?_, by norm_num [round_eq]⟩ <;>
    · show (if (-(1 / 8) : ℚ) = 0 then none
          else some (⟨toFixedRound ((-(1 / 8) : ℚ) * 100), "text-green-600"⟩ :
            MomentumIndicator)) = _
      rw [if_neg (by norm_num), hfix]

/-- C6 amended: on both the Trends page and the Dashboard emerging-trends
panel, a present, nonzero momentum renders as the `toFixed(0)` rounding of
`momentum*100` (ties away from zero; this agrees with `round(momentum*100)`
whenever momentum is nonnegative) with the green upward-trend styling
regardless of sign, while a zero, null or absent momentum renders no
indicator at all. -/
theorem momentum_indicator_amended (t : Trend) (m : ℚ) :
    (t.momentum = JsOpt.val m → m ≠ 0 →
      trendsPageMomentum t = some ⟨toFixedRound (m * 100), "text-green-600"⟩ ∧
      dashboardMomentum t = some ⟨toFixedRound (m * 100), "text-green-600"⟩) ∧
    (0 ≤ m → toFixedRound (m * 100) = round (m * 100)) ∧
    (t.momentum = JsOpt.val 0 ∨ t.momentum = JsOpt.null ∨ t.momentum = JsOpt.undef →
      trendsPageMomentum t = none ∧ dashboardMomentum t = none) := by
  refine ⟨?_, ?_, ?_⟩
  · intro hm hne
    unfold trendsPageMomentum dashboardMomentum
    rw [hm]
    simp [hne]
  · intro hm
    rw [toFixedRound, if_neg (not_lt.mpr (by positivity))]
  · rintro (hm | hm | hm) <;>
      · unfold trendsPageMomentum dashboardMomentum
        rw [hm]
        simp

/-- A concrete Trend with a (negative, non-tie) momentum of `-1/4`. -/
def sampleTrend : Trend :=
  { id := 1, name := "AI Governance", description := JsOpt.undef,
    keywords := JsOpt.undef, start_date := "2025-01-01",
    last_updated := "2025-01-02", article_count := 3,
    momentum := JsOpt.val (-(1 / 4)), status := JsOpt.val "emerging",
    region := JsOpt.undef, data_points := [] }

/-- Witness for the amended C6: the negative momentum `-1/4` still renders,
as `-25` with the green styling. -/
theorem momentum_indicator_amended_witness :
    trendsPageMomentum sampleTrend = some ⟨-25, "text-green-600"⟩ ∧
    dashboardMomentum sampleTrend = some ⟨-25, "text-green-600"⟩ := by
  have h := (momentum_indicator_amended sampleTrend (-(1 / 4))).1 rfl (by norm_num)
  have hr : toFixedRound ((-(1 / 4) : ℚ) * 100) = -25 := by
    norm_num [toFixedRound, round_eq]
  rw [hr] at h
  exact h

/-- A concrete Article whose analysis fields are all absent (`undefined`):
the state of a never-analyzed Article whose JSON simply omits the keys. -/
def absentFieldsArticle : Article :=
  { id := 7, title := "Quiet launch", url := "http://example.com/a",
    source := "Example Wire", source_type := "rss", author := JsOpt.undef,
    published_date := "2025-01-01", scraped_date := "2025-01-02",
    summary := JsOpt.undef, key_takeaways := JsOpt.undef,
    primary_theme := JsOpt.undef, confidence_score := JsOpt.undef,
    region := JsOpt.undef, sentiment_score := JsOpt.undef,
    sentiment_label := JsOpt.undef, signal_strength := JsOpt.undef,
    is_featured := false, is_emerging := false, view_count := 0,
    themes := [], sectors := [] }

/-- C2 counterexample: an Article whose Analyzer never succeeded and whose
analysis fields are absent (rather than null) defeats the `!== null` guards —
the card and the detail view do render the signal-strength metric, and the
detail view renders the AI-confidence metric (both as `NaN`). -/
theorem unanalyzed_article_still_shows_metrics :
    analysisFieldsNullish absentFieldsArticle = true ∧
    cardShowsSignal absentFieldsArticle = true ∧
    detailShowsSignal absentFieldsArticle = true ∧
    detailShowsConfidence absentFieldsArticle = true :=
  ⟨rfl, rfl, rfl, rfl⟩

/-- C2 amended: for an Article whose Analyzer never succeeded and whose
analysis fields are serialized as `null` (keys present), the `!== null`
guards do hold — neither the article list card nor the article detail view
renders a signal-strength or AI-confidence metric. -/
theorem null_analysis_fields_hide_metrics (a : Article)
    (h : analysisFieldsNull a = true) :
    cardShowsSignal a = false ∧ cardShowsConfidence a = false ∧
    detailShowsSignal a = false ∧ detailShowsConfidence a = false := by
  unfold analysisFieldsNull at h
  simp only [Bool.and_eq_true, decide_eq_true_eq] at h
  obtain ⟨⟨⟨⟨⟨h1, h2⟩, h3⟩, h4⟩, h5⟩, h6⟩ := h
  refine ⟨?_, rfl, ?_, ?_⟩
  · unfold cardShowsSignal
    rw [h6]
    rfl
  · unfold detailShowsSignal
    rw [h6]
    rfl
  · unfold detailShowsConfidence
    rw [h3]
    rfl

/-- A concrete Article whose analysis fields are all `null`. -/
def nullFieldsArticle : Article :=
  { id := 8, title := "Pending analysis", url := "http://example.com/b",
    source := "Example Wire", source_type := "rss", author := JsOpt.undef,
    published_date := "2025-01-03", scraped_date := "2025-01-03",
    summary := JsOpt.null, key_takeaways := JsOpt.null,
    primary_theme := JsOpt.null, confidence_score := JsOpt.null,
    region := JsOpt.undef, sentiment_score := JsOpt.null,
    sentiment_label := JsOpt.null, signal_strength := JsOpt.null,
    is_featured := false, is_emerging := false, view_count := 0,
    themes := [], sectors := [] }

/-- Witness for the amended C2, at an Article with all-null analysis
fields. -/
theorem null_analysis_fields_hide_metrics_witness :
    cardShowsSignal nullFieldsArticle = false ∧
    cardShowsConfidence nullFieldsArticle = false ∧
    detailShowsSignal nullFieldsArticle = false ∧
    detailShowsConfidence nullFieldsArticle = false :=
  null_analysis_fields_hide_metrics nullFieldsArticle rfl

/-- The ArticlesPage filter invariant: `skip` is a nonnegative multiple of 20
and `limit` stays 20. -/
def filtersInv (f : Filters) : Prop :=
  (∃ n : ℕ, f.skip = 20 * n) ∧ f.limit = 20

/-- JS `x || 0` on an integer is the integer itself. -/
lemma jsOrInt_zero (x : Int) : jsOrInt x 0 = x := by
  unfold jsOrInt
  split_ifs with h
  · exact h.symm
  · rfl

/-- Every page event preserves the filter invariant. -/
lemma filtersInv_step (f : Filters) (e : FilterEvent) (h : filtersInv f) :
    filtersInv (applyFilterEvent f e) := by
  obtain ⟨⟨n, hn⟩, hl⟩ := h
  cases e with
  | setTheme v => exact ⟨⟨0, by simp [applyFilterEvent]⟩, hl⟩
  | setRegion v => exact ⟨⟨0, by simp [applyFilterEvent]⟩, hl⟩
  | setFeatured v => exact ⟨⟨0, by simp [applyFilterEvent]⟩, hl⟩
  | setMinSignal v => exact ⟨⟨0, by simp [applyFilterEvent]⟩, hl⟩
  | loadMore =>
    refine ⟨⟨n + 1, ?_⟩, hl⟩
    show jsOrInt f.skip 0 + 20 = 20 * (↑(n + 1) : Int)
    rw [jsOrInt_zero, hn]
    push_cast
    ring

/-- The filter invariant holds after any event sequence. -/
lemma filtersInv_run (evs : List FilterEvent) (f : Filters) (h : filtersInv f) :
    filtersInv (evs.foldl applyFilterEvent f) := by
  induction evs generalizing f with
  | nil => exact h
  | cons e es ih => exact ih _ (filtersInv_step f e h)

/-- C8: `skip` starts at 0 with `limit` 20; every `handleFilterChange` resets
`skip` to 0, every `handleLoadMore` adds exactly 20 to `skip`; hence after
any sequence of these operations `skip` is a nonnegative multiple of 20 and
`limit` is still 20. -/
theorem articlesPage_skip_invariant (evs : List FilterEvent) :
    initialFilters.skip = 0 ∧ initialFilters.limit = 20 ∧
    (∀ f v, (applyFilterEvent f (.setTheme v)).skip = 0) ∧
    (∀ f v, (applyFilterEvent f (.setRegion v)).skip = 0) ∧
    (∀ f v, (applyFilterEvent f (.setFeatured v)).skip = 0) ∧
    (∀ f v, (applyFilterEvent f (.setMinSignal v)).skip = 0) ∧
    (∀ f, (applyFilterEvent f .loadMore).skip = f.skip + 20) ∧
    (∃ n : ℕ, (runFilterEvents evs).skip = 20 * n) ∧
    (runFilterEvents evs).limit = 20 := by
  have hrun := filtersInv_run evs initialFilters ⟨⟨0, rfl⟩, rfl⟩
  refine ⟨rfl, rfl, fun f v => rfl, fun f v => rfl, fun f v => rfl, fun f v => rfl,
    ?_, hrun.1, hrun.2⟩
  intro f
  show jsOrInt f.skip 0 + 20 = f.skip + 20
  rw [jsOrInt_zero]

/-- `parseIntJs` agrees with JS `parseInt` on the shapes the `ArticleDetail`
guard turns on: a `0x` prefix parses in radix 16, a bare `0x` is `NaN`, and
carriage-return whitespace is skipped. -/
lemma parseIntJs_checks :
    parseIntJs "0x10" = some 16 ∧ parseIntJs "-0x10" = some (-16) ∧
    parseIntJs "0x" = none ∧ parseIntJs "\r5" = some 5 ∧
    parseIntJs "  42abc" = some 42 ∧ parseIntJs "abc" = none ∧
    parseIntJs "0" = some 0 ∧ parseIntJs "-7" = some (-7) :=
  ⟨rfl, rfl, rfl, rfl, rfl, rfl, rfl, rfl⟩

/-- A hex route parameter parses to a nonzero id, so the page does enable the
query and issues a request: the disabled-guard hypothesis below excludes this
case. -/
lemma articleDetailView_hex_requests :
    articleDetailView (some "0x10") (fun _ => none) = (true, DetailRender.notFound) :=
  rfl

/-- C9: when the route parameter is missing, is `'0'`, or parses to 0 or NaN,
`ArticleDetail` disables the query (no API request is issued) and renders the
not-found state. -/
theorem articleDetail_disabled_guard (idParam : Option String)
    (fetch : Int → Option Article)
    (h : idParam = none ∨ idParam = some "0" ∨
      articleIdOfParam idParam = some 0 ∨ articleIdOfParam idParam = none) :
    articleDetailView idParam fetch = (false, DetailRender.notFound) := by
  have hfalse : articleIdTruthy (articleIdOfParam idParam) = false := by
    rcases h with h | h | h | h
    · subst h; rfl
    · subst h; rfl
    · rw [h]; rfl
    · rw [h]; rfl
  unfold articleDetailView
  simp [hfalse]

/-- Witness for C9: a non-numeric route parameter issues no request and shows
not-found. -/
theorem articleDetail_disabled_guard_witness :
    articleDetailView (some "abc") (fun _ => none) = (false, DetailRender.notFound) :=
  articleDetail_disabled_guard (some "abc") (fun _ => none)
    (Or.inr (Or.inr (Or.inr rfl)))

namespace Pipeline

/-- Some stored Article matches the normalized URL `u`. -/
def hasUrl (norm : String → String) (stored : List StoredArticle) (u : String) :
    Prop :=
  ∃ a ∈ stored, norm a.url = norm u

/-- Ingesting a document never removes a stored Article. -/
lemma mem_ingestDoc {norm : String → String} {stored d} {a : StoredArticle}
    (h : a ∈ stored) : a ∈ ingestDoc norm stored d := by
  unfold ingestDoc
  split
  · exact List.mem_append_left _ h
  · exact h

/-- A run never removes a stored Article. -/
lemma mem_ingestRun {norm : String → String} {docs} {a : StoredArticle} :
    ∀ {stored}, a ∈ stored → a ∈ ingestRun norm stored docs := by
  induction docs with
  | nil => exact fun h => h
  | cons d ds ih => exact fun h => ih (mem_ingestDoc h)

/-- After ingesting a document its normalized URL is always present. -/
lemma hasUrl_ingestDoc_self (norm : String → String) (stored : List StoredArticle)
    (d : IngestedDocument) : hasUrl norm (ingestDoc norm stored d) d.url := by
  unfold ingestDoc
  split_ifs with hnew
  · exact ⟨⟨d.url, d.title, d.source_id⟩,
      List.mem_append_right _ (List.mem_singleton_self _), rfl⟩
  · have hany : (stored.any fun a => norm a.url = norm d.url) = true := by
      cases hall : stored.any fun a => norm a.url = norm d.url
      · exact absurd (by simp [isNew, hall]) hnew
      · rfl
    simpa [hasUrl, List.any_eq_true] using hany

/-- Ingesting a document whose normalized URL is already stored is a
no-op. -/
lemma ingestDoc_eq_of_hasUrl {norm : String → String} {stored d}
    (h : hasUrl norm stored d.url) : ingestDoc norm stored d = stored := by
  have hany : (stored.any fun a => norm a.url = norm d.url) = true := by
    simp only [List.any_eq_true, decide_eq_true_eq]
    exact h
  unfold ingestDoc isNew
  rw [hany]
  rfl

/-- URL presence survives a whole run. -/
lemma hasUrl_ingestRun {norm : String → String} {stored docs u}
    (h : hasUrl norm stored u) : hasUrl norm (ingestRun norm stored docs) u := by
  obtain ⟨a, ha, he⟩ := h
  exact ⟨a, mem_ingestRun ha, he⟩

/-- After one run, every processed document's normalized URL is stored. -/
lemma ingestRun_hasUrl {norm : String → String} {docs} :
    ∀ {stored}, ∀ d ∈ docs, hasUrl norm (ingestRun norm stored docs) d.url := by
  induction docs with
  | nil => intro stored d hd; cases hd
  | cons d0 ds ih =>
    intro stored d hd
    rcases List.mem_cons.mp hd with h | h
    · subst h
      show hasUrl norm (ingestRun norm (ingestDoc norm stored d) ds) d.url
      exact hasUrl_ingestRun (hasUrl_ingestDoc_self norm stored d)
    · exact ih d h

/-- A run over documents whose normalized URLs are all already stored changes
nothing. -/
lemma ingestRun_fixed {norm : String → String} {R docs}
    (h : ∀ d ∈ docs, hasUrl norm R d.url) : ingestRun norm R docs = R := by
  induction docs with
  | nil => rfl
  | cons d ds ih =>
    show ingestRun norm (ingestDoc norm R d) ds = R
    rw [ingestDoc_eq_of_hasUrl (h d (List.mem_cons_self d ds))]
    exact ih fun d' hd' => h d' (List.mem_cons_of_mem _ hd')

/-- Ingesting one document preserves pairwise-distinct normalized URLs. -/
lemma urlsDistinct_ingestDoc {norm : String → String} {stored d}
    (h : urlsDistinct norm stored) : urlsDistinct norm (ingestDoc norm stored d) := by
  unfold ingestDoc
  split_ifs with hnew
  · refine List.pairwise_append.2 ⟨h, List.pairwise_singleton _ _, ?_⟩
    intro a ha b hb
    have hb' : b = ⟨d.url, d.title, d.source_id⟩ := by simpa using hb
    subst hb'
    have hany : (stored.any fun x => norm x.url = norm d.url) = false := by
      simpa [isNew] using hnew
    have := List.any_eq_false.mp hany a ha
    simpa using this
  · exact h

/-- A run preserves pairwise-distinct normalized URLs. -/
lemma urlsDistinct_ingestRun {norm : String → String} {docs} :
    ∀ {stored}, urlsDistinct norm stored → urlsDistinct norm (ingestRun norm stored docs) := by
  induction docs with
  | nil => exact fun h => h
  | cons d ds ih => exact fun h => ih (urlsDistinct_ingestDoc h)

/-- C3: ingestion is idempotent — replaying one run's fetch output over the
run's result changes nothing (so two runs over the same fetch output yield
the same Article count as one), and stored Articles keep pairwise distinct
normalized URLs, so at most one Article ever exists per normalized URL. -/
theorem ingestion_idempotent (norm : String → String) (stored : List StoredArticle)
    (docs : List IngestedDocument) :
    ingestRun norm (ingestRun norm stored docs) docs = ingestRun norm stored docs ∧
    (urlsDistinct norm stored → urlsDistinct norm (ingestRun norm stored docs)) :=
  ⟨ingestRun_fixed fun d hd => ingestRun_hasUrl d hd,
   fun h => urlsDistinct_ingestRun h⟩

/-- A batch with a duplicated URL: `A, B, A-repost`. -/
def sampleDocs : List IngestedDocument :=
  [⟨"http://a", "body", "A", "2025-01-01", 1⟩,
   ⟨"http://b", "body", "B", "2025-01-01", 1⟩,
   ⟨"http://a", "body again", "A repost", "2025-01-01", 2⟩]

/-- Witness for C3 on a concrete batch with a duplicated URL, starting from
an empty store. -/
theorem ingestion_idempotent_witness :
    ingestRun (fun s => s) (ingestRun (fun s => s) [] sampleDocs) sampleDocs =
      ingestRun (fun s => s) [] sampleDocs ∧
    urlsDistinct (fun s => s) (ingestRun (fun s => s) [] sampleDocs) :=
  ⟨(ingestion_idempotent (fun s => s) [] sampleDocs).1,
   (ingestion_idempotent (fun s => s) [] sampleDocs).2 List.Pairwise.nil⟩

/-- Each Trend Engine transition decision is a sound step. -/
lemma stepOk_nextStatus (p z : ℚ) (s : TrendStatus) (m : ℚ) :
    stepOk s (nextStatus p z s m) := by
  cases s <;> simp only [nextStatus] <;> split_ifs <;> unfold stepOk allowedEdge <;>
    decide

/-- A status trace always starts at its seed status. -/
lemma statusTrace_head (p z : ℚ) (s : TrendStatus) (ms : List ℚ) :
    ∃ l, statusTrace p z s ms = s :: l := by
  cases ms <;> exact ⟨_, rfl⟩

/-- Every status trace is a chain of sound steps. -/
lemma chain'_statusTrace (p z : ℚ) (ms : List ℚ) :
    ∀ s, List.Chain' stepOk (statusTrace p z s ms) := by
  induction ms with
  | nil => exact fun s => List.chain'_singleton s
  | cons m ms ih =>
    intro s
    obtain ⟨l, hl⟩ := statusTrace_head p z (nextStatus p z s m) ms
    show List.Chain' stepOk (s :: statusTrace p z (nextStatus p z s m) ms)
    rw [hl]
    exact List.chain'_cons.2 ⟨stepOk_nextStatus p z s m, hl ▸ ih (nextStatus p z s m)⟩

/-- C4: for any thresholds and momentum history, consecutive statuses a
Trend takes on either repeat or follow one of the allowed edges
`emerging→growing`, `growing→peak`, `peak→declining`, `declining→growing`,
and no step ever enters `emerging` from another status, so a Trend (created
in `emerging`) enters `emerging` at most once. -/
theorem trend_status_transitions (p z : ℚ) (s : TrendStatus) (m : ℚ)
    (ms : List ℚ) :
    stepOk s (nextStatus p z s m) ∧
    List.Chain' stepOk (statusTrace p z s ms) :=
  ⟨stepOk_nextStatus p z s m, chain'_statusTrace p z ms s⟩

/-- Witness for C4 on a concrete momentum history covering growth, peak and
decline. -/
theorem trend_status_transitions_witness :
    stepOk TrendStatus.emerging (nextStatus 1 0 TrendStatus.emerging 2) ∧
    List.Chain' stepOk (statusTrace 1 0 TrendStatus.emerging [2, 2, 0, -1]) :=
  trend_status_transitions 1 0 TrendStatus.emerging 2 [2, 2, 0, -1]

/-- An Article's stored analysis, when present, passed validation. -/
def analysisOk (a : AnalyzedArticle) : Prop :=
  ∀ r, a.analysis = some r → validResult r = true

/-- One Analyzer attempt preserves `analysisOk`. -/
lemma analysisOk_apply {a : AnalyzedArticle} {o : Option AnalysisResult}
    (h : analysisOk a) : analysisOk (applyAnalysis a o) := by
  cases o with
  | none => exact h
  | some r =>
    by_cases hv : validResult r = true
    · intro r' hr'
      have heq : applyAnalysis a (some r) = { url := a.url, analysis := some r } := by
        simp [applyAnalysis, hv]
      rw [heq] at hr'
      have hrr : r = r' := by simpa using hr'
      exact hrr ▸ hv
    · have heq : applyAnalysis a (some r) = a := by simp [applyAnalysis, hv]
      rw [heq]
      exact h

/-- Any history of Analyzer attempts preserves `analysisOk`. -/
lemma analysisOk_foldl {outcomes : List (Option AnalysisResult)} :
    ∀ {a : AnalyzedArticle}, analysisOk a →
      analysisOk (outcomes.foldl applyAnalysis a) := by
  induction outcomes with
  | nil => exact fun h => h
  | cons o os ih => exact fun h => ih (analysisOk_apply h)

/-- The analysis stays absent exactly while no attempt has been accepted. -/
lemma foldl_analysis_none {outcomes : List (Option AnalysisResult)} :
    ∀ {a : AnalyzedArticle},
      ((outcomes.foldl applyAnalysis a).analysis = none ↔
        a.analysis = none ∧ anyAccepted outcomes = false) := by
  induction outcomes with
  | nil => intro a; simp [anyAccepted]
  | cons o os ih =>
    intro a
    show (os.foldl applyAnalysis (applyAnalysis a o)).analysis = none ↔ _
    rw [ih]
    cases o with
    | none => simp [applyAnalysis, anyAccepted]
    | some r =>
      by_cases hv : validResult r = true
      · simp [applyAnalysis, hv, anyAccepted]
      · simp [applyAnalysis, hv, anyAccepted]

/-- C5: starting from an unanalyzed Article, after any history of Analyzer
attempts the analysis fields are absent exactly when no attempt ever
succeeded, and whenever they are present `0 ≤ signal_strength ≤ 1`,
`0 ≤ confidence_score ≤ 1` and `-1 ≤ sentiment_score ≤ 1`. -/
theorem analyzer_contract_bounds (url : String)
    (outcomes : List (Option AnalysisResult)) :
    ((outcomes.foldl applyAnalysis (unanalyzed url)).analysis = none ↔
      anyAccepted outcomes = false) ∧
    (∀ r, (outcomes.foldl applyAnalysis (unanalyzed url)).analysis = some r →
      0 ≤ r.signal_strength ∧ r.signal_strength ≤ 1 ∧
      0 ≤ r.confidence_score ∧ r.confidence_score ≤ 1 ∧
      -1 ≤ r.sentiment_score ∧ r.sentiment_score ≤ 1) := by
  constructor
  · rw [foldl_analysis_none]
    simp [unanalyzed]
  · intro r hr
    have hv := analysisOk_foldl (a := unanalyzed url) (fun r' h => nomatch h) r hr
    simp only [validResult, Bool.and_eq_true, decide_eq_true_eq] at hv
    obtain ⟨⟨⟨⟨⟨⟨⟨h1, h2⟩, h3⟩, h4⟩, h5⟩, h6⟩, h7⟩, h8⟩ := hv
    exact ⟨h1, h2, h3, h4, h5, h6⟩

/-- A concrete valid Analyzer response. -/
def sampleResult : AnalysisResult :=
  { summary := "Policy change signals a workforce shift",
    key_takeaways := ["one", "two", "three"], theme_guess := "AI Governance",
    sentiment_label := "positive", sentiment_score := 1 / 4,
    signal_strength := 7 / 10, confidence_score := 9 / 10 }

/-- Witness for C5: after one accepted attempt the stored result is in
bounds. -/
theorem analyzer_contract_bounds_witness :
    0 ≤ sampleResult.signal_strength ∧ sampleResult.signal_strength ≤ 1 ∧
    0 ≤ sampleResult.confidence_score ∧ sampleResult.confidence_score ≤ 1 ∧
    -1 ≤ sampleResult.sentiment_score ∧ sampleResult.sentiment_score ≤ 1 :=
  (analyzer_contract_bounds "http://example.com/a" [some sampleResult]).2
    sampleResult
    (by norm_num [List.foldl, applyAnalysis, validResult, sampleResult, unanalyzed])

end Pipeline

end HRSignals
